import Mathlib

/-!
Shallow embedding of `src/app.py` of the `manhattan_distance` repository:
the GPX distance/rendering engine (`GPXMapGenerator.compute_gpx_distance`,
`GPXMapGenerator.create_map`), the endpoint wrapper `generate_map`, and the
artifact retention step `cleanup_old_maps`.

Modelling conventions:
- GPX files are parsed values (tracks → segments → points); the file system is
  a partial map from path strings to file contents, where a present file is
  either a well-formed GPX document or malformed (raising a parse error).
- The floating-point haversine distance of `gpxpy` is abstracted as a
  parameter `d : TrackPoint → TrackPoint → ℚ`; `segment.length_2d()` is the
  sum of `d` over consecutive points, as in gpxpy.
- Python exceptions are modelled with `Except`: `compute_gpx_distance` catches
  only `FileNotFoundError`, so a missing file yields `.ok` and a malformed
  file yields `.error .parseError`.
- File creation times (`os.path.getctime`) are modelled as integers; only
  their ordering is used by the code.
-/

namespace ManhattanDistance

/-- A GPX track point (latitude/longitude; elevation and time are unused). -/
structure TrackPoint where
  latitude : ℚ
  longitude : ℚ
deriving DecidableEq

/-- A GPX track segment: an ordered list of points. -/
structure TrackSegment where
  points : List TrackPoint
deriving DecidableEq

/-- A GPX track: an ordered list of segments. -/
structure GpxTrack where
  segments : List TrackSegment
deriving DecidableEq

/-- A parsed GPX document: an ordered list of tracks. -/
structure Gpx where
  tracks : List GpxTrack
deriving DecidableEq

/-- Contents of a file present on disk: either a well-formed GPX document or a
malformed one (on which `gpxpy.parse` raises). -/
inductive FileContent where
  | gpx (g : Gpx)
  | malformed
deriving DecidableEq

/-- The file system: `none` means the path does not exist
(`open` raises `FileNotFoundError`). -/
def FileSystem : Type := String → Option FileContent

/-- The exceptions that can escape the embedded fragment of `app.py`. -/
inductive PyError where
  | parseError
deriving DecidableEq

/-- gpxpy's `segment.length_2d()`: sum of the pairwise 2D distance `d` between
consecutive points of the segment (0 for fewer than two points). -/
def segmentLength2d (d : TrackPoint → TrackPoint → ℚ) : List TrackPoint → ℚ
  | a :: b :: rest => d a b + segmentLength2d d (b :: rest)
  | _ => 0

/-- Total 2D length of a GPX document in meters: the double loop
`for track in gpx.tracks: for segment in track.segments:` accumulating
`segment.length_2d()`. -/
def gpxLength2d (d : TrackPoint → TrackPoint → ℚ) (g : Gpx) : ℚ :=
  (g.tracks.map fun t => (t.segments.map fun s => segmentLength2d d s.points).sum).sum

/-- `GPXMapGenerator.compute_gpx_distance` (src/app.py lines 55-66): opens the
file, parses it, sums `length_2d` over all segments of all tracks, divides by
1000. Only `FileNotFoundError` is caught (returning `0.0` km); a parse error
propagates. -/
def compute_gpx_distance (d : TrackPoint → TrackPoint → ℚ) (fs : FileSystem)
    (file_path : String) : Except PyError ℚ :=
  match fs file_path with
  | none => .ok (0 / 1000)
  | some .malformed => .error .parseError
  | some (.gpx g) => .ok (gpxLength2d d g / 1000)

/-- One spreadsheet row, as used by `create_map`: `row["GPX file ID"]`,
`row["Date (walk)"]`, `row.get("Comments", "")` (already defaulted). -/
structure TripRecord where
  gpxFileId : String
  dateWalk : String
  comments : String
deriving DecidableEq

/-- A `folium.PolyLine` as constructed in `create_map`: the segment's
(latitude, longitude) pairs, the fixed style constants, and the tooltip. -/
structure FoliumPolyLine where
  points : List (ℚ × ℚ)
  color : String
  weight : ℕ
  opacity : ℚ
  tooltip : String
deriving DecidableEq

/-- Python's fixed-point formatting `f"{q:.2f}"` for the non-negative
distances appearing here: round to the nearest hundredth and print with two
digits after the decimal point. -/
def formatFixed2 (q : ℚ) : String :=
  let n : ℕ := (round (q * 100)).toNat
  toString (n / 100) ++ "." ++ (if n % 100 < 10 then "0" else "") ++ toString (n % 100)

/-- The tooltip f-string `f"{date}: {comment} ({walked_distance:.2f} km)"`. -/
def tooltipText (date comment : String) (walked : ℚ) : String :=
  date ++ ": " ++ comment ++ " (" ++ formatFixed2 walked ++ " km)"

/-- The `folium.PolyLine(points, color="blue", weight=4, opacity=0.9,
tooltip=...)` built for one segment of one record. -/
def segmentPolyline (date comment : String) (walked : ℚ) (s : TrackSegment) :
    FoliumPolyLine :=
  { points := s.points.map fun p => (p.latitude, p.longitude)
    color := "blue"
    weight := 4
    opacity := 9 / 10
    tooltip := tooltipText date comment walked }

/-- All polylines added for one record's GPX document, in per-track then
per-segment order (the nested `for track ... for segment ...` loop). -/
def recordPolylines (date comment : String) (walked : ℚ) (g : Gpx) :
    List FoliumPolyLine :=
  g.tracks.flatMap fun t => t.segments.map (segmentPolyline date comment walked)

/-- `os.path.join(gpx_folder, f"route\x7brow[...]\x7d.gpx")`: the resolved
per-record file path `route<id>.gpx` inside the GPX folder. -/
def resolvePath (gpx_folder : String) (r : TripRecord) : String :=
  gpx_folder ++ "/" ++ "route" ++ r.gpxFileId ++ ".gpx"

/-- The second `open`/parse of `create_map` (lines 86-101): a missing file is
caught (`FileNotFoundError`) and contributes no polylines; a malformed file
raises; a well-formed file yields one polyline per segment. -/
def loadPolylines (fs : FileSystem) (file_path date comment : String)
    (walked : ℚ) : Except PyError (List FoliumPolyLine) :=
  match fs file_path with
  | none => .ok []
  | some .malformed => .error .parseError
  | some (.gpx g) => .ok (recordPolylines date comment walked g)

/-- `GPXMapGenerator.create_map` (src/app.py lines 68-103), restricted to its
computational content: iterate over the rows in order, accumulate
`total_walked_distance`, and collect the polylines added to the map in
input-record order. An uncaught exception anywhere aborts the whole call. -/
def create_map (d : TrackPoint → TrackPoint → ℚ) (fs : FileSystem)
    (gpx_folder : String) :
    List TripRecord → Except PyError (List FoliumPolyLine × ℚ)
  | [] => .ok ([], 0)
  | row :: rest =>
    match compute_gpx_distance d fs (resolvePath gpx_folder row) with
    | .error e => .error e
    | .ok walked =>
      match loadPolylines fs (resolvePath gpx_folder row) row.dateWalk
          row.comments walked with
      | .error e => .error e
      | .ok polys =>
        match create_map d fs gpx_folder rest with
        | .error e => .error e
        | .ok (ps, total) => .ok (polys ++ ps, walked + total)

/-- The polylines one record contributes to a successful `create_map` run. -/
def specRecordPolylines (d : TrackPoint → TrackPoint → ℚ) (fs : FileSystem)
    (folder : String) (r : TripRecord) : List FoliumPolyLine :=
  match fs (resolvePath folder r) with
  | some (.gpx g) => recordPolylines r.dateWalk r.comments (gpxLength2d d g / 1000) g
  | _ => []

/-- The distance one record contributes to `total_walked_distance`. -/
def specRecordDistance (d : TrackPoint → TrackPoint → ℚ) (fs : FileSystem)
    (folder : String) (r : TripRecord) : ℚ :=
  match fs (resolvePath folder r) with
  | some (.gpx g) => gpxLength2d d g / 1000
  | _ => 0

/-- Witness fixtures: a zero point-distance function, a one-point GPX file,
and small file systems. -/
def dZero : TrackPoint → TrackPoint → ℚ := fun _ _ => 0

def onePointGpx : Gpx :=
  { tracks := [{ segments := [{ points := [{ latitude := 1, longitude := 2 }] }] }] }

def fsEmpty : FileSystem := fun _ => none

def fsOneGood : FileSystem := fun p =>
  if p = "gpx_files/route1.gpx" then some (.gpx onePointGpx) else none

def fsOneBad : FileSystem := fun p =>
  if p = "gpx_files/route1.gpx" then some .malformed else none

/-- Witness fixtures: `dTen` assigns 10 meters to every consecutive point
pair; `gpxA` has one two-point segment (10 m), `gpxC` one three-point segment
(20 m); in `fsThree` routes 1 and 3 exist and route 2 is absent. -/
def dTen : TrackPoint → TrackPoint → ℚ := fun _ _ => 10

def gpxA : Gpx :=
  { tracks := [{ segments := [{ points := [⟨0, 0⟩, ⟨0, 1⟩] }] }] }

def gpxC : Gpx :=
  { tracks := [{ segments := [{ points := [⟨1, 0⟩, ⟨1, 1⟩, ⟨1, 2⟩] }] }] }

def recA : TripRecord :=
  { gpxFileId := "1", dateWalk := "2024-01-01", comments := "Morning walk" }

def recB : TripRecord :=
  { gpxFileId := "2", dateWalk := "2024-01-02", comments := "b" }

def recC : TripRecord :=
  { gpxFileId := "3", dateWalk := "2024-01-03", comments := "c" }

def fsThree : FileSystem := fun p =>
  if p = "gpx_files/route1.gpx" then some (.gpx gpxA)
  else if p = "gpx_files/route3.gpx" then some (.gpx gpxC)
  else none

/-- One entry of the `static/maps` directory: a file name and its creation
time (`os.path.getctime`). -/
structure MapsFile where
  name : String
  ctime : ℤ
deriving DecidableEq

/-- The key ordering of `sorted(files, key=getctime, reverse=True)`:
creation time descending. -/
def ctimeDesc (a b : MapsFile) : Prop := b.ctime ≤ a.ctime

instance : DecidableRel ctimeDesc :=
  fun a b => inferInstanceAs (Decidable (b.ctime ≤ a.ctime))

instance : IsTotal MapsFile ctimeDesc :=
  ⟨fun a b => le_total b.ctime a.ctime⟩

instance : IsTrans MapsFile ctimeDesc :=
  ⟨fun _ _ _ hab hbc => le_trans hbc hab⟩

/-- Python's `str.endswith`, stated on the character sequence (extensionally
the same test as `String.endsWith`, but structurally evaluable). -/
def pyEndsWith (s post : String) : Bool := post.data.isSuffixOf s.data

/-- The list comprehension `[f for f in os.listdir(...) if f.endswith('.html')]`. -/
def htmlFiles (files : List MapsFile) : List MapsFile :=
  files.filter fun f => pyEndsWith f.name ".html"

/-- `sorted(..., key=getctime, reverse=True)`: Python's sort is stable, and
`List.insertionSort` with the `ctimeDesc` preorder is the same stable sort. -/
def sortedMaps (files : List MapsFile) : List MapsFile :=
  (htmlFiles files).insertionSort ctimeDesc

/-- The names deleted by the loop `for old_file in files[keep_latest:]`. -/
def removedNames (files : List MapsFile) (keep_latest : ℕ) : List String :=
  ((sortedMaps files).drop keep_latest).map fun f => f.name

/-- `cleanup_old_maps` (src/app.py lines 134-141): if the maps folder exists,
list it, keep only the `.html` entries, sort them by creation time descending,
and `os.remove` every entry past the first `keep_latest`. Returns the deleted
names and the new folder state; a missing folder is left untouched. -/
def cleanup_old_maps (folderState : Option (List MapsFile)) (keep_latest : ℕ) :
    List String × Option (List MapsFile) :=
  match folderState with
  | none => ([], none)
  | some files =>
    (removedNames files keep_latest,
     some (files.filter fun f => !decide (f.name ∈ removedNames files keep_latest)))

/-- Seven artifacts in arbitrary directory order with distinct creation
times 1..7. -/
def sevenMaps : List MapsFile :=
  [⟨"m3.html", 3⟩, ⟨"m1.html", 1⟩, ⟨"m7.html", 7⟩, ⟨"m5.html", 5⟩,
   ⟨"m2.html", 2⟩, ⟨"m6.html", 6⟩, ⟨"m4.html", 4⟩]

/-- A JSON-like value in the dict returned by `generate_map`. -/
inductive JVal where
  | str (s : String)
  | num (q : ℚ)
  | boolean (b : Bool)
deriving DecidableEq

/-- The GPX folder constant (BASE_DIR-relative `gpx_files`). -/
def GPX_FOLDER : String := "gpx_files"

/-- The maps-output folder constant (BASE_DIR-relative `static/maps`). -/
def STATIC_MAPS_FOLDER : String := "static/maps"

/-- `str(e)` for the embedded exceptions. -/
def pyErrorMessage : PyError → String
  | .parseError => "ParseError"

/-- Python's `round(x, 2)` on the non-negative totals appearing here. -/
def roundTo2 (q : ℚ) : ℚ := ((round (q * 100) : ℤ) : ℚ) / 100

/-- Environment of one `generate_map` call: the `SHEET_URL` variable, the
outcome of the `GPXMapGenerator()` constructor (it loads
`GOOGLE_SHEETS_CREDENTIALS` and raises `ValueError` when unset or
`json.JSONDecodeError` when malformed), the outcome of the spreadsheet fetch,
the file system and point distance used by `create_map`, the outcomes of
`m.save` and of the cleanup step (each may raise), and the two
`datetime.now()` strings. -/
structure GenEnv where
  sheet_url : Option String
  ctorResult : Except String Unit
  fetchResult : Except String (List TripRecord)
  fs : FileSystem
  d : TrackPoint → TrackPoint → ℚ
  saveResult : String → Except String Unit
  cleanupResult : Except String Unit
  now1 : String
  now2 : String

/-- The body of `generate_map`'s `try:` block (src/app.py lines 112-130):
fetch the records, build the map, save it, clean up old maps, and return the
success dict. Any step's exception aborts the block. -/
def generateBody (env : GenEnv) : Except String (List (String × JVal)) :=
  match env.fetchResult with
  | .error e => .error e
  | .ok df =>
    match create_map env.d env.fs GPX_FOLDER df with
    | .error pe => .error (pyErrorMessage pe)
    | .ok pt =>
      match env.saveResult (STATIC_MAPS_FOLDER ++ "/" ++
          ("gpx_map_" ++ env.now1 ++ ".html")) with
      | .error e => .error e
      | .ok _ =>
        match env.cleanupResult with
        | .error e => .error e
        | .ok _ =>
          .ok [("success", JVal.boolean true),
               ("map_file", JVal.str ("gpx_map_" ++ env.now1 ++ ".html")),
               ("total_distance", JVal.num (roundTo2 pt.2)),
               ("timestamp", JVal.str env.now2)]

/-- `generate_map` (src/app.py lines 105-132): missing `SHEET_URL` returns an
error dict; then `generator = GPXMapGenerator()` (line 110) runs OUTSIDE the
`try:` block, so a credential-loading exception propagates uncaught
(modelled as `.error`); finally the `try:` body runs and any exception `e`
raised inside it is caught and turned into
`\x7b'success': False, 'error': str(e)\x7d` — the function then returns a
dict (modelled as `.ok`). -/
def generate_map (env : GenEnv) : Except String (List (String × JVal)) :=
  match env.sheet_url with
  | none => .ok [("success", JVal.boolean false),
                 ("error", JVal.str "SHEET_URL environment variable not set")]
  | some _ =>
    match env.ctorResult with
    | .error e => .error e
    | .ok _ =>
      match generateBody env with
      | .ok result => .ok result
      | .error e => .ok [("success", JVal.boolean false), ("error", JVal.str e)]

/-- A sample environment whose steps all succeed on an empty record list. -/
def envOk : GenEnv :=
  { sheet_url := some "https://sheets.example/u"
    ctorResult := .ok ()
    fetchResult := .ok []
    fs := fsEmpty
    d := dZero
    saveResult := fun _ => .ok ()
    cleanupResult := .ok ()
    now1 := "20240101_000000"
    now2 := "2024-01-01" }

/-- The same environment but with `GOOGLE_SHEETS_CREDENTIALS` unset, so the
`GPXMapGenerator()` constructor raises `ValueError` (src/app.py line 39). -/
def envCtorFail : GenEnv :=
  { envOk with
    ctorResult := .error "GOOGLE_SHEETS_CREDENTIALS environment variable not set" }

/-! ## Theorems -/

theorem segmentLength2d_nonneg (d : TrackPoint → TrackPoint → ℚ)
    (hd : ∀ p q, 0 ≤ d p q) : ∀ l, 0 ≤ segmentLength2d d l
  | [] => le_refl 0
  | [_] => le_refl 0
  | a :: b :: rest => by
    rw [segmentLength2d]
    exact add_nonneg (hd a b) (segmentLength2d_nonneg d hd (b :: rest))

theorem gpxLength2d_nonneg (d : TrackPoint → TrackPoint → ℚ)
    (hd : ∀ p q, 0 ≤ d p q) (g : Gpx) : 0 ≤ gpxLength2d d g := by
  apply List.sum_nonneg
  intro x hx
  simp only [gpxLength2d, List.mem_map] at hx
  obtain ⟨t, _, rfl⟩ := hx
  apply List.sum_nonneg
  intro y hy
  simp only [List.mem_map] at hy
  obtain ⟨s, _, rfl⟩ := hy
  exact segmentLength2d_nonneg d hd s.points

/-- C3: `compute_gpx_distance` returns exactly `0.0` (without raising) for
every non-existent path, and a non-negative value for every existing
well-formed GPX file (the pairwise point distance being non-negative). -/
theorem compute_gpx_distance_missing_zero_and_nonneg
    (d : TrackPoint → TrackPoint → ℚ) (fs : FileSystem) (path : String) :
    (fs path = none → compute_gpx_distance d fs path = .ok 0) ∧
    (∀ g : Gpx, (∀ p q, 0 ≤ d p q) → fs path = some (.gpx g) →
      ∃ w : ℚ, compute_gpx_distance d fs path = .ok w ∧ 0 ≤ w) := by
  constructor
  · intro h
    simp [compute_gpx_distance, h]
  · intro g hd h
    refine ⟨gpxLength2d d g / 1000, ?_, ?_⟩
    · simp [compute_gpx_distance, h]
    · exact div_nonneg (gpxLength2d_nonneg d hd g) (by norm_num)

theorem compute_gpx_distance_missing_zero_and_nonneg_witness :
    (compute_gpx_distance dZero fsEmpty "gpx_files/route1.gpx" = .ok 0) ∧
    (∃ w : ℚ, compute_gpx_distance dZero fsOneGood "gpx_files/route1.gpx" = .ok w ∧
      0 ≤ w) :=
  ⟨(compute_gpx_distance_missing_zero_and_nonneg dZero fsEmpty
      "gpx_files/route1.gpx").1 rfl,
   (compute_gpx_distance_missing_zero_and_nonneg dZero fsOneGood
      "gpx_files/route1.gpx").2 onePointGpx (fun _ _ => le_refl 0) rfl⟩

/-- C4: for an existing but malformed GPX file, the parse error is not caught
inside `compute_gpx_distance`: it propagates to the caller. -/
theorem compute_gpx_distance_malformed_raises
    (d : TrackPoint → TrackPoint → ℚ) (fs : FileSystem) (path : String)
    (h : fs path = some .malformed) :
    compute_gpx_distance d fs path = .error .parseError := by
  simp [compute_gpx_distance, h]

theorem compute_gpx_distance_malformed_raises_witness :
    compute_gpx_distance dZero fsOneBad "gpx_files/route1.gpx" = .error .parseError :=
  compute_gpx_distance_malformed_raises dZero fsOneBad "gpx_files/route1.gpx" rfl

/-- C10: an existing well-formed GPX file with no tracks, or in which every
segment has fewer than two points, yields exactly `0.0`. -/
theorem compute_gpx_distance_degenerate_zero
    (d : TrackPoint → TrackPoint → ℚ) (fs : FileSystem) (path : String) (g : Gpx)
    (hf : fs path = some (.gpx g))
    (h : g.tracks = [] ∨ ∀ t ∈ g.tracks, ∀ s ∈ t.segments, s.points.length < 2) :
    compute_gpx_distance d fs path = .ok 0 := by
  have hz : gpxLength2d d g = 0 := by
    rcases h with h | h
    · simp [gpxLength2d, h]
    · unfold gpxLength2d
      apply List.sum_eq_zero
      intro x hx
      simp only [List.mem_map] at hx
      obtain ⟨t, ht, rfl⟩ := hx
      apply List.sum_eq_zero
      intro y hy
      simp only [List.mem_map] at hy
      obtain ⟨s, hs, rfl⟩ := hy
      have hlen := h t ht s hs
      match hp : s.points with
      | [] => simp [segmentLength2d]
      | [_] => simp [segmentLength2d]
      | a :: b :: rest => rw [hp] at hlen; simp at hlen; omega
  simp [compute_gpx_distance, hf, hz]

theorem compute_gpx_distance_degenerate_zero_witness :
    compute_gpx_distance dZero fsOneGood "gpx_files/route1.gpx" = .ok 0 :=
  compute_gpx_distance_degenerate_zero dZero fsOneGood "gpx_files/route1.gpx"
    onePointGpx rfl
    (Or.inr (by intro t ht s hs
                simp [onePointGpx] at ht hs
                subst ht; simp at hs; subst hs; simp))

theorem create_map_ok_eq (d : TrackPoint → TrackPoint → ℚ) (fs : FileSystem)
    (folder : String) :
    ∀ df ps t, create_map d fs folder df = .ok (ps, t) →
      ps = df.flatMap (specRecordPolylines d fs folder) ∧
      t = (df.map (specRecordDistance d fs folder)).sum
  | [], ps, t, h => by
    rw [create_map] at h
    injection h with h
    injection h with h1 h2
    subst h1; subst h2
    simp
  | row :: rest, ps, t, h => by
    rw [create_map] at h
    rcases hw : compute_gpx_distance d fs (resolvePath folder row) with e | walked <;>
      rw [hw] at h <;> dsimp only at h
    · exact Except.noConfusion h
    rcases hl : loadPolylines fs (resolvePath folder row) row.dateWalk
        row.comments walked with e | polys <;> rw [hl] at h <;> dsimp only at h
    · exact Except.noConfusion h
    rcases hr : create_map d fs folder rest with e | pt <;> rw [hr] at h <;>
      dsimp only at h
    · exact Except.noConfusion h
    obtain ⟨ps', t'⟩ := pt
    dsimp only at h
    obtain ⟨h1, h2⟩ := Prod.mk.inj (Except.ok.inj h)
    obtain ⟨ih1, ih2⟩ := create_map_ok_eq d fs folder rest ps' t' hr
    have hkey : polys = specRecordPolylines d fs folder row ∧
        walked = specRecordDistance d fs folder row := by
      unfold loadPolylines at hl
      unfold compute_gpx_distance at hw
      unfold specRecordPolylines specRecordDistance
      rcases hc : fs (resolvePath folder row) with _ | (g | _) <;>
        rw [hc] at hw hl <;> dsimp only at hw hl ⊢
      · exact ⟨(Except.ok.inj hl).symm, by rw [← Except.ok.inj hw]; norm_num⟩
      · refine ⟨?_, (Except.ok.inj hw).symm⟩
        rw [← Except.ok.inj hl, Except.ok.inj hw]
      · exact Except.noConfusion hw
    constructor
    · rw [← h1, ih1, hkey.1]
      simp [List.flatMap]
    · rw [← h2, ih2, hkey.2]
      simp

theorem specRecordDistance_eq_compute (d : TrackPoint → TrackPoint → ℚ)
    (fs : FileSystem) (folder : String) (r : TripRecord) :
    specRecordDistance d fs folder r =
      ((compute_gpx_distance d fs (resolvePath folder r)).toOption).getD 0 := by
  unfold specRecordDistance compute_gpx_distance
  rcases fs (resolvePath folder r) with _ | (g | _)
  · show (0 : ℚ) = 0 / 1000
    norm_num
  · rfl
  · rfl

/-- C1: for every record sequence and GPX folder, on a successful run the
`total_walked_distance` returned by `create_map` equals the sum, in input
order, of `compute_gpx_distance` applied to each record's resolved path
`route<id>.gpx` — independent of how many polylines were produced. -/
theorem create_map_total_is_sum_of_compute
    (d : TrackPoint → TrackPoint → ℚ) (fs : FileSystem) (folder : String)
    (df : List TripRecord) (ps : List FoliumPolyLine) (t : ℚ)
    (h : create_map d fs folder df = .ok (ps, t)) :
    t = (df.map fun r =>
      ((compute_gpx_distance d fs (resolvePath folder r)).toOption).getD 0).sum := by
  rw [(create_map_ok_eq d fs folder df ps t h).2]
  have hfun : specRecordDistance d fs folder = fun r =>
      ((compute_gpx_distance d fs (resolvePath folder r)).toOption).getD 0 :=
    funext (specRecordDistance_eq_compute d fs folder)
  rw [hfun]

theorem create_map_total_is_sum_of_compute_witness :
    gpxLength2d dTen gpxA / 1000 + (0 / 1000 + (gpxLength2d dTen gpxC / 1000 + 0)) =
      ([recA, recB, recC].map fun r =>
        ((compute_gpx_distance dTen fsThree (resolvePath "gpx_files" r)).toOption).getD
          0).sum :=
  create_map_total_is_sum_of_compute dTen fsThree "gpx_files" [recA, recB, recC]
    (recordPolylines recA.dateWalk recA.comments (gpxLength2d dTen gpxA / 1000) gpxA ++
      ([] ++ (recordPolylines recC.dateWalk recC.comments
        (gpxLength2d dTen gpxC / 1000) gpxC ++ [])))
    (gpxLength2d dTen gpxA / 1000 + (0 / 1000 + (gpxLength2d dTen gpxC / 1000 + 0)))
    rfl

theorem create_map_no_malformed (d : TrackPoint → TrackPoint → ℚ)
    (fs : FileSystem) (folder : String) :
    ∀ df : List TripRecord,
      (∀ r ∈ df, fs (resolvePath folder r) ≠ some .malformed) →
      create_map d fs folder df =
        .ok (df.flatMap (specRecordPolylines d fs folder),
             (df.map (specRecordDistance d fs folder)).sum)
  | [], _ => by simp [create_map]
  | row :: rest, h => by
    have hrest := create_map_no_malformed d fs folder rest
      (fun r hr => h r (List.mem_cons_of_mem _ hr))
    have hrow := h row (List.mem_cons_self row rest)
    rw [create_map, hrest]
    rcases hc : fs (resolvePath folder row) with _ | (g | _)
    · have h1 : compute_gpx_distance d fs (resolvePath folder row) = .ok (0 / 1000) := by
        unfold compute_gpx_distance; rw [hc]
      rw [h1]; dsimp only
      have h2 : loadPolylines fs (resolvePath folder row) row.dateWalk
          row.comments (0 / 1000) = .ok [] := by
        unfold loadPolylines; rw [hc]
      rw [h2]; dsimp only
      simp [specRecordPolylines, specRecordDistance, hc, List.flatMap]
    · have h1 : compute_gpx_distance d fs (resolvePath folder row) =
          .ok (gpxLength2d d g / 1000) := by
        unfold compute_gpx_distance; rw [hc]
      rw [h1]; dsimp only
      have h2 : loadPolylines fs (resolvePath folder row) row.dateWalk
          row.comments (gpxLength2d d g / 1000) =
          .ok (recordPolylines row.dateWalk row.comments (gpxLength2d d g / 1000) g) := by
        unfold loadPolylines; rw [hc]
      rw [h2]; dsimp only
      simp [specRecordPolylines, specRecordDistance, hc, List.flatMap]
    · exact absurd hc hrow

/-- C2: when every record's GPX file is either absent or well-formed,
`create_map` does not raise; each absent-file record contributes no polylines
but a zero summand to the total, and present-file records contribute their
polylines in input order. -/
theorem create_map_absent_records (d : TrackPoint → TrackPoint → ℚ)
    (fs : FileSystem) (folder : String) (df : List TripRecord)
    (h : ∀ r ∈ df, fs (resolvePath folder r) = none ∨
         ∃ g, fs (resolvePath folder r) = some (.gpx g)) :
    create_map d fs folder df =
      .ok (df.flatMap (specRecordPolylines d fs folder),
           (df.map (specRecordDistance d fs folder)).sum) ∧
    ∀ r : TripRecord, fs (resolvePath folder r) = none →
      specRecordPolylines d fs folder r = [] ∧
      specRecordDistance d fs folder r = 0 := by
  constructor
  · apply create_map_no_malformed
    intro r hr
    rcases h r hr with hc | ⟨g, hc⟩ <;> simp [hc]
  · intro r hc
    unfold specRecordPolylines specRecordDistance
    rw [hc]
    exact ⟨rfl, rfl⟩

theorem create_map_absent_records_witness :
    (create_map dTen fsThree "gpx_files" [recA, recB, recC] =
      .ok ([recA, recB, recC].flatMap (specRecordPolylines dTen fsThree "gpx_files"),
           ([recA, recB, recC].map (specRecordDistance dTen fsThree "gpx_files")).sum) ∧
     ∀ r : TripRecord, fsThree (resolvePath "gpx_files" r) = none →
       specRecordPolylines dTen fsThree "gpx_files" r = [] ∧
       specRecordDistance dTen fsThree "gpx_files" r = 0) ∧
    create_map dTen fsThree "gpx_files" [recA, recB, recC] =
      .ok (recordPolylines recA.dateWalk recA.comments
             (gpxLength2d dTen gpxA / 1000) gpxA ++
             ([] ++ (recordPolylines recC.dateWalk recC.comments
               (gpxLength2d dTen gpxC / 1000) gpxC ++ [])),
           gpxLength2d dTen gpxA / 1000 +
             (0 / 1000 + (gpxLength2d dTen gpxC / 1000 + 0))) :=
  ⟨create_map_absent_records dTen fsThree "gpx_files" [recA, recB, recC]
    (by intro r hr
        fin_cases hr
        · exact Or.inr ⟨gpxA, rfl⟩
        · exact Or.inl rfl
        · exact Or.inr ⟨gpxC, rfl⟩),
   rfl⟩

/-- C5: every polyline generated for a record whose file exists carries the
tooltip `<date>: <comment> (<d> km)` with `<d>` the record's whole-file
distance formatted to two decimals — the same value on every polyline of the
record — and the spec's example formats as claimed. -/
theorem create_map_tooltip (d : TrackPoint → TrackPoint → ℚ) (fs : FileSystem)
    (folder : String) (r : TripRecord) (g : Gpx) (walked : ℚ)
    (hg : fs (resolvePath folder r) = some (.gpx g))
    (hw : compute_gpx_distance d fs (resolvePath folder r) = .ok walked) :
    (∀ p ∈ specRecordPolylines d fs folder r,
        p.tooltip = tooltipText r.dateWalk r.comments walked) ∧
    walked = gpxLength2d d g / 1000 ∧
    tooltipText "2024-01-01" "Morning walk" ((3456 : ℚ) / 1000) =
      "2024-01-01: Morning walk (3.46 km)" := by
  have hwv : walked = gpxLength2d d g / 1000 := by
    unfold compute_gpx_distance at hw
    rw [hg] at hw
    dsimp only at hw
    exact (Except.ok.inj hw).symm
  have hround : round ((3456 : ℚ) / 1000 * 100) = 346 := by
    rw [round_eq, Int.floor_eq_iff]
    constructor <;> norm_num
  have hexample : tooltipText "2024-01-01" "Morning walk" ((3456 : ℚ) / 1000) =
      "2024-01-01: Morning walk (3.46 km)" := by
    unfold tooltipText formatFixed2
    rw [hround]
    decide
  refine ⟨?_, hwv, hexample⟩
  intro p hp
  unfold specRecordPolylines at hp
  rw [hg] at hp
  dsimp only at hp
  simp only [recordPolylines, List.mem_flatMap, List.mem_map] at hp
  obtain ⟨tr, htr, s, hs, rfl⟩ := hp
  rw [hwv]
  rfl

theorem create_map_tooltip_witness :
    (∀ p ∈ specRecordPolylines dTen fsThree "gpx_files" recA,
        p.tooltip = tooltipText recA.dateWalk recA.comments
          (gpxLength2d dTen gpxA / 1000)) ∧
    gpxLength2d dTen gpxA / 1000 = gpxLength2d dTen gpxA / 1000 ∧
    tooltipText "2024-01-01" "Morning walk" ((3456 : ℚ) / 1000) =
      "2024-01-01: Morning walk (3.46 km)" :=
  create_map_tooltip dTen fsThree "gpx_files" recA gpxA
    (gpxLength2d dTen gpxA / 1000) rfl rfl

/-- C7: on a successful run the output polylines appear in input record
order, within one record in per-track then per-segment order of the GPX file,
and each polyline's point sequence is the segment's points in order. -/
theorem create_map_polyline_order (d : TrackPoint → TrackPoint → ℚ)
    (fs : FileSystem) (folder : String) (df : List TripRecord)
    (ps : List FoliumPolyLine) (t : ℚ)
    (h : create_map d fs folder df = .ok (ps, t)) :
    ps = df.flatMap (specRecordPolylines d fs folder) ∧
    (∀ date comment walked g, recordPolylines date comment walked g =
      g.tracks.flatMap fun tr => tr.segments.map fun s =>
        segmentPolyline date comment walked s) ∧
    ∀ date comment walked s, (segmentPolyline date comment walked s).points =
      s.points.map fun p => (p.latitude, p.longitude) :=
  ⟨(create_map_ok_eq d fs folder df ps t h).1,
   fun _ _ _ _ => rfl, fun _ _ _ _ => rfl⟩

theorem create_map_polyline_order_witness :
    recordPolylines recA.dateWalk recA.comments (gpxLength2d dTen gpxA / 1000) gpxA ++
        ([] ++ (recordPolylines recC.dateWalk recC.comments
          (gpxLength2d dTen gpxC / 1000) gpxC ++ [])) =
      [recA, recB, recC].flatMap (specRecordPolylines dTen fsThree "gpx_files") ∧
    (∀ date comment walked g, recordPolylines date comment walked g =
      g.tracks.flatMap fun tr => tr.segments.map fun s =>
        segmentPolyline date comment walked s) ∧
    ∀ date comment walked s, (segmentPolyline date comment walked s).points =
      s.points.map fun p => (p.latitude, p.longitude) :=
  create_map_polyline_order dTen fsThree "gpx_files" [recA, recB, recC]
    (recordPolylines recA.dateWalk recA.comments (gpxLength2d dTen gpxA / 1000) gpxA ++
      ([] ++ (recordPolylines recC.dateWalk recC.comments
        (gpxLength2d dTen gpxC / 1000) gpxC ++ [])))
    (gpxLength2d dTen gpxA / 1000 + (0 / 1000 + (gpxLength2d dTen gpxC / 1000 + 0)))
    rfl

theorem removedNames_html (files : List MapsFile) (keep : ℕ) :
    ∀ n ∈ removedNames files keep, pyEndsWith n ".html" = true := by
  intro n hn
  simp only [removedNames, List.mem_map] at hn
  obtain ⟨f, hf, rfl⟩ := hn
  have h1 : f ∈ sortedMaps files := List.mem_of_mem_drop hf
  have h2 : f ∈ htmlFiles files := (List.mem_insertionSort ctimeDesc).mp h1
  exact (List.mem_filter.mp h2).2

/-- C6: the retention step deletes exactly the artifacts past the first
`keep_latest` of the creation-time-descending order, so every deleted
artifact's creation time is at most every kept one's; with 7 artifacts and a
keep-count of 5 it deletes exactly the 2 oldest (see the witness). -/
theorem cleanup_old_maps_retention (files : List MapsFile) (keep : ℕ) :
    (cleanup_old_maps (some files) keep).1 =
      ((sortedMaps files).drop keep).map (fun f => f.name) ∧
    (sortedMaps files).Perm (htmlFiles files) ∧
    List.Sorted ctimeDesc (sortedMaps files) ∧
    ∀ x ∈ (sortedMaps files).drop keep, ∀ y ∈ (sortedMaps files).take keep,
      x.ctime ≤ y.ctime := by
  refine ⟨rfl, List.perm_insertionSort ctimeDesc _,
    List.sorted_insertionSort ctimeDesc _, ?_⟩
  intro x hx y hy
  have hs : List.Sorted ctimeDesc (sortedMaps files) :=
    List.sorted_insertionSort ctimeDesc _
  rw [← List.take_append_drop keep (sortedMaps files)] at hs
  exact (List.pairwise_append.mp hs).2.2 y hy x hx

theorem cleanup_old_maps_retention_witness :
    ((cleanup_old_maps (some sevenMaps) 5).1 =
      ((sortedMaps sevenMaps).drop 5).map (fun f => f.name) ∧
     (sortedMaps sevenMaps).Perm (htmlFiles sevenMaps) ∧
     List.Sorted ctimeDesc (sortedMaps sevenMaps) ∧
     ∀ x ∈ (sortedMaps sevenMaps).drop 5, ∀ y ∈ (sortedMaps sevenMaps).take 5,
       x.ctime ≤ y.ctime) ∧
    (cleanup_old_maps (some sevenMaps) 5).1 = ["m2.html", "m1.html"] ∧
    (cleanup_old_maps (some sevenMaps) 5).2 =
      some [⟨"m3.html", 3⟩, ⟨"m7.html", 7⟩, ⟨"m5.html", 5⟩, ⟨"m6.html", 6⟩,
            ⟨"m4.html", 4⟩] :=
  ⟨cleanup_old_maps_retention sevenMaps 5, by decide, by decide⟩

/-- C9: the retention step only ever deletes `.html` files — any file without
that suffix stays in the folder whatever its age — and a missing maps folder
means nothing is deleted and nothing raises. -/
theorem cleanup_old_maps_frame (folderState : Option (List MapsFile)) (keep : ℕ) :
    (∀ n ∈ (cleanup_old_maps folderState keep).1, pyEndsWith n ".html" = true) ∧
    (∀ files, folderState = some files → ∀ f ∈ files,
       pyEndsWith f.name ".html" = false →
       ∃ kept, (cleanup_old_maps folderState keep).2 = some kept ∧ f ∈ kept) ∧
    (folderState = none → cleanup_old_maps folderState keep = ([], none)) := by
  rcases folderState with _ | files
  · refine ⟨?_, ?_, fun _ => rfl⟩
    · intro n hn
      simp [cleanup_old_maps] at hn
    · intro files hfe
      exact absurd hfe (by simp)
  · refine ⟨?_, ?_, by intro hfe; cases hfe⟩
    · intro n hn
      exact removedNames_html files keep n hn
    · intro files' hfe f hf hhtml
      injection hfe with hfe
      subst hfe
      refine ⟨files.filter fun x => !decide (x.name ∈ removedNames files keep),
        rfl, ?_⟩
      rw [List.mem_filter]
      refine ⟨hf, ?_⟩
      have hnot : f.name ∉ removedNames files keep := by
        intro hmem
        have := removedNames_html files keep f.name hmem
        rw [hhtml] at this
        exact Bool.noConfusion this
      simp [hnot]

theorem cleanup_old_maps_frame_witness :
    (∃ kept, (cleanup_old_maps (some [⟨"a.html", 1⟩, ⟨"notes.txt", 5⟩]) 0).2 =
        some kept ∧ (⟨"notes.txt", 5⟩ : MapsFile) ∈ kept) ∧
    cleanup_old_maps none 0 = ([], none) :=
  ⟨(cleanup_old_maps_frame (some [⟨"a.html", 1⟩, ⟨"notes.txt", 5⟩]) 0).2.1
      [⟨"a.html", 1⟩, ⟨"notes.txt", 5⟩] rfl ⟨"notes.txt", 5⟩
      (by simp) (by decide),
   (cleanup_old_maps_frame none 0).2.2 rfl⟩

theorem generateBody_ok_shape (env : GenEnv) (r : List (String × JVal))
    (h : generateBody env = .ok r) :
    ∃ rest, r = ("success", JVal.boolean true) :: rest := by
  unfold generateBody at h
  rcases hf : env.fetchResult with e | df <;> rw [hf] at h <;> dsimp only at h
  · exact Except.noConfusion h
  rcases hc : create_map env.d env.fs GPX_FOLDER df with pe | pt <;>
    rw [hc] at h <;> dsimp only at h
  · exact Except.noConfusion h
  rcases hs : env.saveResult (STATIC_MAPS_FOLDER ++ "/" ++
      ("gpx_map_" ++ env.now1 ++ ".html")) with e | u <;> rw [hs] at h <;>
    dsimp only at h
  · exact Except.noConfusion h
  rcases hcl : env.cleanupResult with e | u <;> rw [hcl] at h <;> dsimp only at h
  · exact Except.noConfusion h
  exact ⟨_, (Except.ok.inj h).symm⟩

/-- C8 counterexample: the claim as stated is false of the program. With
`SHEET_URL` set but `GOOGLE_SHEETS_CREDENTIALS` unset, the
`GPXMapGenerator()` constructor (src/app.py line 110) runs after the
`SHEET_URL` check and OUTSIDE the `try:` block, so its `ValueError`
propagates out of `generate_map` uncaught: no dict with a `success` key is
returned. -/
theorem generate_map_ctor_raises :
    envCtorFail.sheet_url = some "https://sheets.example/u" ∧
    generate_map envCtorFail =
      .error "GOOGLE_SHEETS_CREDENTIALS environment variable not set" ∧
    ∀ result : List (String × JVal), generate_map envCtorFail ≠ .ok result :=
  ⟨rfl, rfl, fun _ h => Except.noConfusion h⟩

/-- C8 (amended): once `SHEET_URL` is set AND the `GPXMapGenerator()`
constructor succeeds (its credential-loading error is the one uncaught
path), `generate_map` never propagates an exception: it returns a dict that
either starts with `success: True` or is exactly the failure dict, and an
exception in the fetch step or in `create_map` yields
`\x7b'success': False, 'error': <message>\x7d`. -/
theorem generate_map_returns_dict (env : GenEnv) (url : String)
    (h : env.sheet_url = some url) (hctor : env.ctorResult = .ok ()) :
    ((∃ rest, generate_map env = .ok (("success", JVal.boolean true) :: rest)) ∨
     (∃ e, generate_map env =
        .ok [("success", JVal.boolean false), ("error", JVal.str e)])) ∧
    (∀ e, env.fetchResult = .error e →
      generate_map env =
        .ok [("success", JVal.boolean false), ("error", JVal.str e)]) ∧
    (∀ df pe, env.fetchResult = .ok df →
      create_map env.d env.fs GPX_FOLDER df = .error pe →
      generate_map env =
        .ok [("success", JVal.boolean false),
             ("error", JVal.str (pyErrorMessage pe))]) := by
  have hgen : generate_map env = match generateBody env with
      | .ok result => .ok result
      | .error e => .ok [("success", JVal.boolean false), ("error", JVal.str e)] := by
    unfold generate_map
    rw [h]
    dsimp only
    rw [hctor]
  refine ⟨?_, ?_, ?_⟩
  · rcases hb : generateBody env with e | r
    · right
      exact ⟨e, by rw [hgen, hb]⟩
    · left
      obtain ⟨rest, hrest⟩ := generateBody_ok_shape env r hb
      exact ⟨rest, by rw [hgen, hb, hrest]⟩
  · intro e hf
    have hb : generateBody env = .error e := by
      unfold generateBody
      rw [hf]
    rw [hgen, hb]
  · intro df pe hf hc
    have hb : generateBody env = .error (pyErrorMessage pe) := by
      unfold generateBody
      rw [hf]
      dsimp only
      rw [hc]
    rw [hgen, hb]

theorem generate_map_returns_dict_witness :
    ((∃ rest, generate_map envOk = .ok (("success", JVal.boolean true) :: rest)) ∨
     (∃ e, generate_map envOk =
        .ok [("success", JVal.boolean false), ("error", JVal.str e)])) ∧
    (∀ e, envOk.fetchResult = .error e →
      generate_map envOk =
        .ok [("success", JVal.boolean false), ("error", JVal.str e)]) ∧
    (∀ df pe, envOk.fetchResult = .ok df →
      create_map envOk.d envOk.fs GPX_FOLDER df = .error pe →
      generate_map envOk =
        .ok [("success", JVal.boolean false),
             ("error", JVal.str (pyErrorMessage pe))]) :=
  generate_map_returns_dict envOk "https://sheets.example/u" rfl rfl

end ManhattanDistance
